import Mathlib

/-!
Verification of the ChatBud chat server against its specification.

The development shallowly embeds the JavaScript source:
* SQL tables become lists of rows; `AUTO_INCREMENT` ids become explicit
  `nextId` counters threaded through the state.
* JavaScript numbers are modelled as exact integers (`Int`/`Nat`); this is
  faithful for the magnitudes the handlers see (|n| < 2^53).
* Asynchronous handlers become pure state-passing functions; every emitted
  socket event is collected into explicit per-destination lists.
* Database failures (connection errors etc.) are injected through explicit
  fault flags; duplicate-key (`ER_DUP_ENTRY`) errors arise structurally from
  the modelled uniqueness constraints.
* `bcrypt` hashing and locale time rendering are opaque to every claim and
  are modelled by injective placeholder functions.
-/

set_option maxHeartbeats 1000000

namespace ChatBud

/-- Placeholder for `bcrypt.hash` (models/User.js): the hash value is never
inspected by any handler, only stored and compared by `bcrypt.compare`. -/
def bcryptHash (password : String) : String := "bcrypt$" ++ password

/-- Placeholder for `Date#toLocaleTimeString` (utils/messages.js): the rendered
string is never inspected by any handler, only shipped to clients. -/
def renderTime (t : Nat) : String := "t:" ++ toString t

/-- A row of the `users` table (schema per models/User.js inserts and selects:
id, username, email, password_hash, avatar_url, is_online, last_seen). -/
structure UserRow where
  id : Nat
  username : String
  email : String
  passwordHash : String
  avatarUrl : Option String
  isOnline : Bool
  lastSeen : Nat
deriving DecidableEq

/-- The `users` table together with its `AUTO_INCREMENT` counter.  The table
carries `UNIQUE` constraints on `username` and on `email`. -/
structure UsersDb where
  rows : List UserRow
  nextId : Nat
deriving DecidableEq

/-- `User.findByUsername` (models/User.js): `SELECT * FROM users WHERE
username = ?`, returning `rows[0]`. -/
def User.findByUsername (db : UsersDb) (username : String) : Option UserRow :=
  db.rows.find? (fun r => r.username = username)

/-- `User.findByEmail` (models/User.js): `SELECT * FROM users WHERE email = ?`,
returning `rows[0]`. -/
def User.findByEmail (db : UsersDb) (email : String) : Option UserRow :=
  db.rows.find? (fun r => r.email = email)

/-- MySQL error outcomes distinguished by the handlers: a duplicate-key
violation (`ER_DUP_ENTRY`) versus any other error. -/
inductive DbErr where
  | dupEntry
  | other
deriving DecidableEq

/-- `User.create` (models/User.js): `INSERT INTO users (username, email,
password_hash) VALUES (?, ?, ?)` returning `insertId`.  The insert throws
`ER_DUP_ENTRY` when the unique `username` or `email` key is already taken;
`fail` injects any other database failure. -/
def User.create (db : UsersDb) (username email password : String) (fail : Bool) :
    Except DbErr (Nat × UsersDb) :=
  if fail then .error .other
  else if db.rows.any (fun r => r.username = username || r.email = email) then
    .error .dupEntry
  else
    .ok (db.nextId,
      { rows := db.rows ++ [{ id := db.nextId, username := username, email := email,
                              passwordHash := bcryptHash password, avatarUrl := none,
                              isOnline := false, lastSeen := 0 }],
        nextId := db.nextId + 1 })

/-- `User.setOnlineStatus` (models/User.js): `UPDATE users SET is_online = ?,
last_seen = CURRENT_TIMESTAMP WHERE id = ?`. -/
def User.setOnlineStatus (db : UsersDb) (userId : Nat) (isOnline : Bool) (now : Nat) : UsersDb :=
  { db with rows := db.rows.map (fun r =>
      if r.id = userId then { r with isOnline := isOnline, lastSeen := now } else r) }

/-- `email.split('@')[0]` (app.js line 133): the local part of the email,
i.e. the longest prefix not containing `@`. -/
def localPart (email : String) : String :=
  String.mk (email.toList.takeWhile (fun c => c ≠ '@'))

/-- HTTP responses of `POST /auth/register` (app.js lines 119-177). -/
inductive RegisterResult where
  | badRequest (msg : String)
  | conflict (msg : String)
  | serverError (msg : String)
  | success (id : Nat) (username email : String)
deriving DecidableEq

/-- The `POST /auth/register` handler (app.js lines 119-177).

Source subtlety that this embedding reproduces: `username` is declared with
`const` on line 133 (`const username = email.split('@')[0];`), yet line 150
executes `username = newUsername;` in the collision branch.  Assigning to a
`const` binding throws a `TypeError` at runtime.  The `while` loop before it
only performs reads, so when the collision branch is reached the handler
throws with the database unchanged; the outer `catch` sees an error whose
`code` is not `ER_DUP_ENTRY` and responds 500 "Server error during
registration".  `createFail` injects a database failure into `User.create`. -/
def register (db : UsersDb) (email password : String) (createFail : Bool) :
    RegisterResult × UsersDb :=
  if email = "" ∨ password = "" then
    (.badRequest "Email and password are required", db)
  else if password.length < 6 then
    (.badRequest "Password must be at least 6 characters", db)
  else
    let username := localPart email
    match User.findByEmail db email with
    | some _ => (.conflict "Email already registered", db)
    | none =>
      match User.findByUsername db username with
      | some _ =>
        -- line 150 `username = newUsername;` throws: `username` is `const`
        (.serverError "Server error during registration", db)
      | none =>
        match User.create db username email password createFail with
        | .ok (userId, db1) => (.success userId username email, db1)
        | .error .dupEntry =>
          -- unreachable sequentially (both keys were just checked); kept for
          -- the catch branch on app.js lines 167-173
          (.conflict "Email already registered", db)
        | .error .other => (.serverError "Server error during registration", db)

/-- JavaScript `parseInt` digit values (supports the default radix-16 branch
triggered by a `0x` prefix). -/
def hexDigitVal (c : Char) : Option Nat :=
  if '0' ≤ c ∧ c ≤ '9' then some (c.toNat - 48)
  else if 'a' ≤ c ∧ c ≤ 'f' then some (c.toNat - 87)
  else if 'A' ≤ c ∧ c ≤ 'F' then some (c.toNat - 55)
  else none

/-- Value of a digit string in the given radix. -/
def digitsVal (radix : Nat) (ds : List Char) : Nat :=
  ds.foldl (fun n c => n * radix + ((hexDigitVal c).getD 0)) 0

/-- JavaScript `parseInt(s)` (default radix): skip leading whitespace, read an
optional sign, switch to radix 16 on a `0x`/`0X` prefix, then take the longest
prefix of digits valid in the radix; `none` models `NaN` (no digits). -/
def parseIntJs (s : String) : Option Int :=
  let cs := s.toList.dropWhile (fun c => c.isWhitespace)
  let signed :=
    match cs with
    | '-' :: rest => ((-1 : Int), rest)
    | '+' :: rest => ((1 : Int), rest)
    | _ => ((1 : Int), cs)
  let based :=
    match signed.2 with
    | '0' :: 'x' :: rest => (16, rest)
    | '0' :: 'X' :: rest => (16, rest)
    | _ => (10, signed.2)
  let ds := based.2.takeWhile (fun c =>
    match hexDigitVal c with
    | some v => decide (v < based.1)
    | none => false)
  if ds.isEmpty then none
  else some (signed.1 * (digitsVal based.1 ds : Int))

/-- A row of the `rooms` table (schema per models/Message.js `ensureRoom`). -/
structure RoomRow where
  id : Nat
  name : String
  createdBy : Nat
deriving DecidableEq

/-- A row of the `messages` table (models/Message.js inserts/selects). -/
structure MessageRow where
  id : Nat
  userId : Nat
  roomId : Nat
  message : String
  messageType : String
  timestamp : Nat
  isDeleted : Bool
deriving DecidableEq

/-- The `rooms` and `messages` tables with their `AUTO_INCREMENT` counters. -/
structure MsgDb where
  rooms : List RoomRow
  msgs : List MessageRow
  nextRoomId : Nat
  nextMsgId : Nat
deriving DecidableEq

/-- `Message.ensureRoom` (models/Message.js lines 5-29): `SELECT id FROM rooms
WHERE name = ?`; when absent, `INSERT INTO rooms (name, created_by) VALUES
(?, 1)` and return the `insertId`. -/
def Message.ensureRoom (db : MsgDb) (roomName : String) : Nat × MsgDb :=
  match db.rooms.find? (fun r => r.name = roomName) with
  | some r => (r.id, db)
  | none =>
    (db.nextRoomId,
     { db with
         rooms := db.rooms ++ [{ id := db.nextRoomId, name := roomName, createdBy := 1 }],
         nextRoomId := db.nextRoomId + 1 })

/-- `Message.create` (models/Message.js lines 32-47): ensure the room, then
`INSERT INTO messages (user_id, room_id, message, message_type)`; the caller
that omits the type gets the default `'text'`. -/
def Message.create (db : MsgDb) (now userId : Nat) (roomName message messageType : String) :
    Nat × MsgDb :=
  let ensured := Message.ensureRoom db roomName
  (ensured.2.nextMsgId,
   { ensured.2 with
       msgs := ensured.2.msgs ++ [{ id := ensured.2.nextMsgId, userId := userId,
                                    roomId := ensured.1, message := message,
                                    messageType := messageType, timestamp := now,
                                    isDeleted := false }],
       nextMsgId := ensured.2.nextMsgId + 1 })

/-- A row of the history `SELECT` in `Message.getRecentMessages`: `m.*,
u.username, u.avatar_url, m.timestamp as local_time` (the alias duplicates the
timestamp, so a single field models both). -/
structure MsgView where
  username : String
  avatarUrl : Option String
  message : String
  messageType : String
  timestamp : Nat
deriving DecidableEq

/-- `ORDER BY m.timestamp DESC`: row `a` may precede row `b` when
`b.timestamp ≤ a.timestamp`. -/
def tsDesc (a b : MsgView) : Prop := b.timestamp ≤ a.timestamp

instance : DecidableRel tsDesc := fun a b => Nat.decLe b.timestamp a.timestamp

instance : IsTotal MsgView tsDesc := ⟨fun a b => Nat.le_total b.timestamp a.timestamp⟩

instance : IsTrans MsgView tsDesc := ⟨fun _ _ _ h1 h2 => Nat.le_trans h2 h1⟩

/-- The `SELECT ... JOIN users ... JOIN rooms ... WHERE r.name = ? AND
m.is_deleted = FALSE ORDER BY m.timestamp DESC LIMIT n` of
`Message.getRecentMessages` (models/Message.js lines 59-67). -/
def Message.queryRecent (users : List UserRow) (db : MsgDb) (roomName : String) (n : Nat) :
    List MsgView :=
  let rows := db.msgs.filterMap (fun m =>
    match db.rooms.find? (fun r => r.id = m.roomId), users.find? (fun u => u.id = m.userId) with
    | some r, some u =>
      if r.name = roomName ∧ m.isDeleted = false then
        some { username := u.username, avatarUrl := u.avatarUrl, message := m.message,
               messageType := m.messageType, timestamp := m.timestamp }
      else none
    | _, _ => none)
  (List.insertionSort tsDesc rows).take n

/-- `Math.max(1, Math.min(parseInt(limit, 10) || 50, 1000))` (models/Message.js
line 56).  The handler receives `limit` as a number; `parseInt(limit, 10)`
round-trips it through `String`, the identity on integral values, and `|| 50`
replaces `0` (and `NaN`) by 50. -/
def clampLimit (limit : Int) : Nat :=
  (max 1 (min (if limit = 0 then 50 else limit) 1000)).toNat

/-- `Message.getRecentMessages` (models/Message.js lines 50-74): ensure the
room exists, clamp the limit, run the descending query, and
`rows.reverse()`. -/
def Message.getRecentMessages (users : List UserRow) (db : MsgDb) (roomName : String)
    (limit : Int) : List MsgView × MsgDb :=
  let ensured := Message.ensureRoom db roomName
  ((Message.queryRecent users ensured.2 roomName (clampLimit limit)).reverse, ensured.2)

/-- The client-facing message shape produced by `formatDbMessage`
(utils/messages.js lines 9-31). -/
structure FmtMessage where
  username : String
  text : String
  time : String
  messageType : String
  avatar : Option String
deriving DecidableEq

/-- `formatDbMessage` (utils/messages.js): `username || 'Unknown User'`
(empty string is falsy), `message || ''`, time rendered from `local_time`
(always selected, equal to the stored timestamp), `message_type || 'text'`,
and the avatar URL. -/
def formatDbMessage (v : MsgView) : FmtMessage :=
  { username := if v.username = "" then "Unknown User" else v.username,
    text := v.message,
    time := renderTime v.timestamp,
    messageType := if v.messageType = "" then "text" else v.messageType,
    avatar := v.avatarUrl }

/-- Responses of `GET /api/messages/:room` (app.js lines 189-206). -/
inductive ApiResult where
  | unauthorized
  | ok (messages : List FmtMessage)
deriving DecidableEq

/-- `const limit = parseInt(req.query.limit) || 50;` (app.js line 196): a
missing parameter parses to `NaN`; `NaN` and `0` are falsy. -/
def appLimit (limitParam : Option String) : Int :=
  match limitParam with
  | none => 50
  | some s =>
    match parseIntJs s with
    | none => 50
    | some n => if n = 0 then 50 else n

/-- The `GET /api/messages/:room` handler (app.js lines 189-206). -/
def apiGetMessages (users : List UserRow) (db : MsgDb) (authenticated : Bool)
    (room : String) (limitParam : Option String) : ApiResult × MsgDb :=
  if authenticated = false then (.unauthorized, db)
  else
    let loaded := Message.getRecentMessages users db room (appLimit limitParam)
    (.ok (loaded.1.map formatDbMessage), loaded.2)

/-- JavaScript `String#trim`: strip leading and trailing whitespace (the
Unicode whitespace class is approximated by `Char.isWhitespace`). -/
def jsTrim (s : String) : String :=
  String.mk (((s.toList.dropWhile Char.isWhitespace).reverse.dropWhile
    Char.isWhitespace).reverse)

/-- The in-memory presence record built by `userJoin` (utils/users.js
lines 9-16): `{ id, socketId, sessionId, username, room, joinedAt }`. -/
structure Presence where
  id : Nat
  socketId : String
  sessionId : String
  username : String
  room : String
  joinedAt : Nat
deriving DecidableEq

/-- The `connectedUsers` JavaScript `Map` (utils/users.js line 5), modelled as
an insertion-ordered association list. -/
abbrev PresenceMap := List (String × Presence)

/-- `Map#get`. -/
def mapGet (m : PresenceMap) (k : String) : Option Presence :=
  (m.find? (fun p => p.1 = k)).map (fun p => p.2)

/-- `Map#set`: replaces the value of an existing key in place; otherwise
appends a new entry (JS maps preserve insertion order). -/
def mapSet (k : String) (v : Presence) (m : PresenceMap) : PresenceMap :=
  if m.any (fun p => p.1 = k) then
    m.map (fun p => if p.1 = k then (k, v) else p)
  else m ++ [(k, v)]

/-- `Map#delete`. -/
def mapDelete (k : String) (m : PresenceMap) : PresenceMap :=
  m.filter (fun p => p.1 ≠ k)

/-- The presence-registry mutations performed by the coordinator:
`userJoin` runs `connectedUsers.set(socketId, user)` (utils/users.js line 18)
and `userLeave` runs `connectedUsers.delete(socketId)` (line 41). -/
inductive PresenceOp where
  | join (socketId : String) (p : Presence)
  | leave (socketId : String)
deriving DecidableEq

/-- The registry effect of one coordinator call. -/
def applyPresenceOp (m : PresenceMap) : PresenceOp → PresenceMap
  | .join k p => mapSet k p m
  | .leave k => mapDelete k m

/-- The registry after an arbitrary interleaving of join and leave calls. -/
def applyPresenceOps (m : PresenceMap) (ops : List PresenceOp) : PresenceMap :=
  ops.foldl applyPresenceOp m

/-- Each connection id occurs at most once in the registry. -/
def keysNodup (m : PresenceMap) : Prop := (m.map (fun p => p.1)).Nodup

instance (m : PresenceMap) : Decidable (keysNodup m) := by
  unfold keysNodup
  infer_instance

/-- A row of the `active_sessions` table (schema per the Session model
inserts/selects; nullable columns are `Option`). -/
structure SessionRow where
  sessionId : String
  userId : Nat
  socketId : Option String
  roomName : Option String
  ipAddress : Option String
  userAgent : Option String
  createdAt : Nat
  lastActivity : Nat
deriving DecidableEq

/-- `Session.findBySessionId`: `null` on a falsy id, else `SELECT * ...
WHERE session_id = ?` returning `rows[0] || null`. -/
def Session.findBySessionId (sessions : List SessionRow) (sessionId : String) :
    Option SessionRow :=
  if sessionId = "" then none else sessions.find? (fun s => s.sessionId = sessionId)

/-- `Session.create`: if a row with this session id exists, `Session.update`
sets socket, room, ip, agent and refreshes `last_activity = NOW()`; otherwise
a fresh row is inserted with `created_at = last_activity = NOW()`. -/
def Session.create (sessions : List SessionRow) (now : Nat) (sessionId : String)
    (userId : Nat) (socketId roomName ipAddress userAgent : String) : List SessionRow :=
  match Session.findBySessionId sessions sessionId with
  | some _ =>
    sessions.map (fun s =>
      if s.sessionId = sessionId then
        { s with socketId := some socketId, roomName := some roomName,
                 ipAddress := some ipAddress, userAgent := some userAgent,
                 lastActivity := now }
      else s)
  | none =>
    sessions ++ [{ sessionId := sessionId, userId := userId, socketId := some socketId,
                   roomName := some roomName, ipAddress := some ipAddress,
                   userAgent := some userAgent, createdAt := now, lastActivity := now }]

/-- `Session.remove`: no-op on a falsy id, else `DELETE ... WHERE
session_id = ?`. -/
def Session.remove (sessions : List SessionRow) (sessionId : String) : List SessionRow :=
  if sessionId = "" then sessions else sessions.filter (fun s => s.sessionId ≠ sessionId)

/-- The server-side state touched by the socket handlers. -/
structure ServerState where
  usersDb : UsersDb
  msgDb : MsgDb
  sessions : List SessionRow
  presence : PresenceMap
  now : Nat
deriving DecidableEq

/-- Injectable database failures (anything the driver could throw other than
the structurally modelled duplicate-key conflicts). -/
structure Faults where
  createUserFails : Bool
  setOnlineFails : Bool
  sessionCreateFails : Bool
  sessionRemoveFails : Bool
  systemMsgFails : Bool
  msgSaveFails : Bool
  rosterDbFails : Bool
deriving DecidableEq

/-- No injected failures. -/
def noFaults : Faults :=
  { createUserFails := false, setOnlineFails := false, sessionCreateFails := false,
    sessionRemoveFails := false, systemMsgFails := false, msgSaveFails := false,
    rosterDbFails := false }

/-- `userJoin` (utils/users.js lines 8-29): builds the presence record and
registers it with `connectedUsers.set`, then runs `User.setOnlineStatus` and
`Session.create` inside a `try` whose `catch` only logs — a failure of either
database call is swallowed and the already-registered record is returned. -/
def userJoin (f : Faults) (st : ServerState) (socketId sessionId : String) (userId : Nat)
    (username room ipAddress userAgent : String) : Presence × ServerState :=
  let user : Presence := { id := userId, socketId := socketId, sessionId := sessionId,
                           username := username, room := room, joinedAt := st.now }
  let presence1 := mapSet socketId user st.presence
  if f.setOnlineFails then
    -- setOnlineStatus threw: Session.create never runs, the error is logged
    (user, { st with presence := presence1 })
  else
    let usersDb1 := User.setOnlineStatus st.usersDb userId true st.now
    if f.sessionCreateFails then
      -- Session.create threw: the error is logged
      (user, { st with presence := presence1, usersDb := usersDb1 })
    else
      let sessions1 := Session.create st.sessions st.now sessionId userId
        socketId room ipAddress userAgent
      (user, { st with presence := presence1, usersDb := usersDb1, sessions := sessions1 })

/-- `getCurrentUser` (utils/users.js lines 32-34): `connectedUsers.get`. -/
def getCurrentUser (st : ServerState) (socketId : String) : Option Presence :=
  mapGet st.presence socketId

/-- The payload of a `chatMessage` event: a JS string or any non-string
value (the handler only distinguishes these two cases). -/
inductive Payload where
  | str (s : String)
  | nonString
deriving DecidableEq

/-- A live message `{username, text, time}` built by `formatMessage`
(utils/messages.js lines 1-7); the time is rendered at send time. -/
structure LiveMessage where
  username : String
  text : String
  time : String
deriving DecidableEq

/-- `formatMessage` (utils/messages.js). -/
def formatMessage (username text : String) (now : Nat) : LiveMessage :=
  { username := username, text := text, time := renderTime now }

/-- Everything the `chatMessage` handler emits or mutates. -/
structure ChatOutcome where
  senderError : Option String
  broadcast : Option (String × LiveMessage)
  persisted : Option Nat
  state : ServerState
deriving DecidableEq

/-- The `chatMessage` handler (app.js lines 307-343).  `!msg` on a string is
the empty-string check; any non-string is rejected by falsiness or by the
`typeof` check, both with `'Invalid message'`.  On acceptance the message is
persisted fire-and-forget (`.catch` only logs, so a save failure changes
nothing else) and broadcast via `io.to(room)` — the whole room including the
sender. -/
def chatMessage (f : Faults) (st : ServerState) (socketId : String) (payload : Payload) :
    ChatOutcome :=
  match getCurrentUser st socketId with
  | none =>
    { senderError := some "User session not found", broadcast := none,
      persisted := none, state := st }
  | some user =>
    match payload with
    | .nonString =>
      { senderError := some "Invalid message", broadcast := none,
        persisted := none, state := st }
    | .str s =>
      if s = "" then
        { senderError := some "Invalid message", broadcast := none,
          persisted := none, state := st }
      else
        let trimmedMsg := jsTrim s
        if trimmedMsg = "" then
          { senderError := some "Empty message", broadcast := none,
            persisted := none, state := st }
        else if f.msgSaveFails then
          { senderError := none,
            broadcast := some (user.room, formatMessage user.username trimmedMsg st.now),
            persisted := none, state := st }
        else
          let saved := Message.create st.msgDb st.now user.id user.room trimmedMsg "text"
          { senderError := none,
            broadcast := some (user.room, formatMessage user.username trimmedMsg st.now),
            persisted := some saved.1,
            state := { st with msgDb := saved.2 } }

/-- A row of the roster `SELECT DISTINCT u.id, u.username, u.is_online,
u.avatar_url, s.last_activity, s.socket_id` in `Session.getUsersInRoom`. -/
structure RosterDbRow where
  id : Nat
  username : String
  isOnline : Bool
  avatarUrl : Option String
  lastActivity : Nat
  socketId : Option String
deriving DecidableEq

/-- `ORDER BY u.username ASC`: the collation is modelled as codepoint
lexicographic order on the username. -/
def unameLe (a b : RosterDbRow) : Prop := a.username.toList ≤ b.username.toList

instance : DecidableRel unameLe := fun a b =>
  inferInstanceAs (Decidable (a.username.toList ≤ b.username.toList))

instance : IsTotal RosterDbRow unameLe :=
  ⟨fun a b => le_total a.username.toList b.username.toList⟩

instance : IsTrans RosterDbRow unameLe :=
  ⟨fun _ _ _ h1 h2 => le_trans h1 h2⟩

/-- `Session.getUsersInRoom`: `[]` on a falsy room name, else users joined to
`active_sessions` on `u.id = s.user_id`, filtered to `s.room_name = ?` and
`s.last_activity > DATE_SUB(NOW(), INTERVAL 1 HOUR)` (over integers,
`now < last_activity + 3600` seconds), `DISTINCT`, `ORDER BY u.username`. -/
def Session.getUsersInRoom (now : Nat) (users : List UserRow)
    (sessions : List SessionRow) (roomName : String) : List RosterDbRow :=
  if roomName = "" then []
  else
    let joined := sessions.filterMap (fun s =>
      if s.roomName = some roomName ∧ now < s.lastActivity + 3600 then
        (users.find? (fun u => u.id = s.userId)).map (fun u =>
          { id := u.id, username := u.username, isOnline := u.isOnline,
            avatarUrl := u.avatarUrl, lastActivity := s.lastActivity,
            socketId := s.socketId })
      else none)
    List.insertionSort unameLe joined.dedup

/-- An entry of the list returned by `getRoomUsers` (utils/users.js). -/
structure RosterEntry where
  id : Option Nat
  username : String
  isOnline : Bool
  avatar : Option String
deriving DecidableEq

/-- The mapping applied to each database roster row (utils/users.js
lines 62-67).  The query exposes the columns as `id` and `is_online`, so
`user.userId || user.user_id` is `undefined` and
`user.isOnline !== undefined ? user.isOnline : true` is `true`. -/
def dbRosterView (r : RosterDbRow) : RosterEntry :=
  { id := none, username := r.username, isOnline := true, avatar := r.avatarUrl }

/-- The in-memory fallback (utils/users.js lines 71-77 and the identical
catch branch at lines 80-86): presence records filtered by room, every entry
treated as online; the built object carries no avatar field. -/
def memRosterView (presence : PresenceMap) (room : String) : List RosterEntry :=
  ((presence.map (fun p => p.2)).filter (fun u => u.room = room)).map
    (fun u => { id := some u.id, username := u.username, isOnline := true, avatar := none })

/-- `getRoomUsers` (utils/users.js lines 56-93): the database roster when the
query succeeds and is non-empty; the in-memory fallback when it errors
(`dbFails`) or returns empty.  The duplicated fallback after the `return`
inside the catch block is unreachable. -/
def getRoomUsers (dbFails : Bool) (now : Nat) (users : List UserRow)
    (sessions : List SessionRow) (presence : PresenceMap) (room : String) :
    List RosterEntry :=
  if dbFails then memRosterView presence room
  else
    let rows := Session.getUsersInRoom now users sessions room
    if rows.isEmpty then memRosterView presence room
    else rows.map dbRosterView

/-- `const botName = 'ChatBud Bot'` (app.js line 49). -/
def botName : String := "ChatBud Bot"

/-- The guest placeholder email (app.js line 226):
`username.toLowerCase().replace(/[^a-z0-9]/g, '') + '@guest.temp'` (JS
Unicode lowercasing approximated by ASCII `Char.toLower`). -/
def mkTempEmail (username : String) : String :=
  String.mk (username.toLower.toList.filter (fun c =>
    ('a' ≤ c ∧ c ≤ 'z') ∨ ('0' ≤ c ∧ c ≤ '9'))) ++ "@guest.temp"

/-- Socket events emitted by the joinRoom handler. -/
inductive SEvent where
  | roomJoinError (msg : String)
  | roomJoined (room : String) (userId : Nat) (username : String)
  | loadMessages (msgs : List FmtMessage)
  | message (m : LiveMessage)
  | roomUsers (room : String) (users : List RosterEntry)
deriving DecidableEq

/-- The outcome of a joinRoom event: the new state, the events emitted to
the joining socket, those broadcast to the rest of the room
(`socket.broadcast.to(room)`), and those sent to the whole room
(`io.to(room)`). -/
structure JoinResult where
  state : ServerState
  toSender : List SEvent
  toOthers : List SEvent
  toAll : List SEvent
deriving DecidableEq

/-- A row committed by a CONCURRENT connection between this handler's
`User.findByUsername` miss and its `User.create` attempt.  A concurrent
insert can only commit when it respects the unique keys. -/
def applyRace (db : UsersDb) : Option UserRow → UsersDb
  | none => db
  | some r =>
    if db.rows.any (fun x => x.username = r.username || x.email = r.email) then db
    else { rows := db.rows ++ [r], nextId := max db.nextId (r.id + 1) }

/-- The tail of the joinRoom handler (app.js lines 245-300) once a user row
is resolved: `userJoin`, `socket.join`, emit `roomJoined`, load and emit
recent history, welcome the joiner, notify the rest of the room, best-effort
save of the system message, then broadcast the roster to the whole room. -/
def joinRoomWithUser (f : Faults) (st : ServerState)
    (socketId sessionId ipAddress userAgent username room : String) (u : UserRow) :
    JoinResult :=
  let joined := userJoin f st socketId sessionId u.id username room ipAddress userAgent
  let st1 := joined.2
  let loaded := Message.getRecentMessages st1.usersDb.rows st1.msgDb room 20
  let st2 := { st1 with msgDb := loaded.2 }
  let st3 :=
    if f.systemMsgFails then st2
    else { st2 with msgDb := (Message.create st2.msgDb st2.now u.id room
             (username ++ " has joined the chat!") "system").2 }
  let roster := getRoomUsers f.rosterDbFails st3.now st3.usersDb.rows st3.sessions
    st3.presence room
  { state := st3,
    toSender := [SEvent.roomJoined room u.id username,
                 SEvent.loadMessages (loaded.1.map formatDbMessage),
                 SEvent.message (formatMessage botName
                   ("Welcome to ChatBud, " ++ username ++ "! 🎉") st.now)],
    toOthers := [SEvent.message (formatMessage botName
                   (username ++ " has joined the chat! 👋") st.now)],
    toAll := [SEvent.roomUsers room roster] }

/-- The joinRoom handler (app.js lines 212-305).  A falsy username or room is
rejected up front.  An unknown username triggers guest creation; on an
`ER_DUP_ENTRY` conflict the row is re-fetched and reused.  When the re-fetch
also misses (the conflict was on the placeholder email of a different
username), `user` is `undefined` and evaluating `user.id` throws before
`userJoin` runs, so the outer catch emits the generic failure.  Any other
creation error emits `'Error creating user account'` and stops. -/
def joinRoom (f : Faults) (raceRow : Option UserRow) (st : ServerState)
    (socketId sessionId ipAddress userAgent username room : String) : JoinResult :=
  if username = "" ∨ room = "" then
    { state := st, toSender := [SEvent.roomJoinError "Username and room are required"],
      toOthers := [], toAll := [] }
  else
    match User.findByUsername st.usersDb username with
    | some u => joinRoomWithUser f st socketId sessionId ipAddress userAgent username room u
    | none =>
      let db1 := applyRace st.usersDb raceRow
      let st1 := { st with usersDb := db1 }
      let tempEmail := mkTempEmail username
      match User.create db1 username tempEmail "temporary123" f.createUserFails with
      | .ok (userId, db2) =>
        joinRoomWithUser f { st1 with usersDb := db2 } socketId sessionId ipAddress
          userAgent username room
          { id := userId, username := username, email := tempEmail,
            passwordHash := bcryptHash "temporary123", avatarUrl := none,
            isOnline := false, lastSeen := 0 }
      | .error .dupEntry =>
        match User.findByUsername db1 username with
        | some u =>
          joinRoomWithUser f st1 socketId sessionId ipAddress userAgent username room u
        | none =>
          { state := st1,
            toSender := [SEvent.roomJoinError "Failed to join room. Please try again."],
            toOthers := [], toAll := [] }
      | .error .other =>
        { state := st1, toSender := [SEvent.roomJoinError "Error creating user account"],
          toOthers := [], toAll := [] }

/-- Concrete users table: one registered user whose username is `alice`. -/
def usersDbC1 : UsersDb :=
  { rows := [{ id := 1, username := "alice", email := "alice@mail.com",
               passwordHash := bcryptHash "pw123456", avatarUrl := none,
               isOnline := false, lastSeen := 0 }],
    nextId := 2 }

/-- Concrete persisted user row for `alice`. -/
def rowAlice : UserRow :=
  { id := 1, username := "alice", email := "alice@mail.com",
    passwordHash := bcryptHash "pw123456", avatarUrl := none,
    isOnline := false, lastSeen := 0 }

/-- Concrete users list for history fixtures. -/
def usersC3 : List UserRow := [rowAlice]

/-- Concrete message store: room `general` holding two messages by `alice`. -/
def msgDbC3 : MsgDb :=
  { rooms := [{ id := 1, name := "general", createdBy := 1 }],
    msgs := [{ id := 1, userId := 1, roomId := 1, message := "hello",
               messageType := "text", timestamp := 10, isDeleted := false },
             { id := 2, userId := 1, roomId := 1, message := "world",
               messageType := "text", timestamp := 20, isDeleted := false }],
    nextRoomId := 2, nextMsgId := 3 }

/-- Empty message store. -/
def msgDb0 : MsgDb := { rooms := [], msgs := [], nextRoomId := 1, nextMsgId := 1 }

/-- Concrete presence record for `alice` on socket `s1`. -/
def presAlice : Presence :=
  { id := 1, socketId := "s1", sessionId := "sess1", username := "alice",
    room := "general", joinedAt := 50 }

/-- Concrete presence record for `bob` on socket `s2`. -/
def presBob : Presence :=
  { id := 2, socketId := "s2", sessionId := "sess2", username := "bob",
    room := "general", joinedAt := 60 }

/-- Concrete server state with no presence records. -/
def stNoPresence : ServerState :=
  { usersDb := { rows := usersC3, nextId := 2 }, msgDb := msgDbC3,
    sessions := [], presence := [], now := 100 }

/-- Concrete server state where socket `s1` has joined as `alice`. -/
def stWithAlice : ServerState :=
  { stNoPresence with presence := [("s1", presAlice)] }

/-- A concrete interleaving of presence operations. -/
def presOps : List PresenceOp :=
  [.join "s2" presBob, .leave "s1", .join "s2" presAlice, .leave "s3"]

/-- Concrete `active_sessions` table: one session of user 1 in `general`,
last active at 95. -/
def sessionsC8 : List SessionRow :=
  [{ sessionId := "sess1", userId := 1, socketId := some "s1",
     roomName := some "general", ipAddress := some "127.0.0.1",
     userAgent := some "agent", createdAt := 90, lastActivity := 95 }]

/-- Fault set where only `Session.create` fails. -/
def fSessFail : Faults := { noFaults with sessionCreateFails := true }

/-- Fault set where only `User.create` fails (with a non-duplicate error). -/
def fCreateFail : Faults := { noFaults with createUserFails := true }

/-- Concrete server state with an empty users table. -/
def stEmptyUsers : ServerState :=
  { stNoPresence with usersDb := { rows := [], nextId := 1 } }

end ChatBud

namespace ChatBud

/-- C1: registering with an email whose local part collides with an existing
username does NOT create a suffixed user and respond with success; the
handler's assignment to the `const` binding `username` throws, so the request
fails with 500 "Server error during registration", the users table is
unchanged, and no user `alice1` exists afterwards. -/
theorem register_collision_returns_500_not_suffixed_success :
    register usersDbC1 "alice@other.com" "secret1" false =
      (RegisterResult.serverError "Server error during registration", usersDbC1)
    ∧ User.findByUsername usersDbC1 "alice1" = none := by
  constructor
  · decide
  · rfl

theorem clampLimit_bounds (limit : Int) : 1 ≤ clampLimit limit ∧ clampLimit limit ≤ 1000 := by
  unfold clampLimit
  have h1 : (1 : Int) ≤ max 1 (min (if limit = 0 then 50 else limit) 1000) := le_max_left _ _
  have h2 : max 1 (min (if limit = 0 then 50 else limit) 1000) ≤ 1000 :=
    max_le (by norm_num) (min_le_right _ _)
  omega

theorem queryRecent_length_le (users : List UserRow) (db : MsgDb) (roomName : String) (n : Nat) :
    (Message.queryRecent users db roomName n).length ≤ n :=
  List.length_take_le _ _

theorem queryRecent_sorted (users : List UserRow) (db : MsgDb) (roomName : String) (n : Nat) :
    (Message.queryRecent users db roomName n).Pairwise tsDesc :=
  List.Pairwise.sublist (List.take_sublist _ _) (List.sorted_insertionSort tsDesc _)

theorem getRecent_length_le (users : List UserRow) (db : MsgDb) (roomName : String)
    (limit : Int) :
    (Message.getRecentMessages users db roomName limit).1.length ≤ clampLimit limit := by
  show (Message.queryRecent users (Message.ensureRoom db roomName).2 roomName
      (clampLimit limit)).reverse.length ≤ clampLimit limit
  rw [List.length_reverse]
  exact queryRecent_length_le _ _ _ _

theorem getRecent_chronological (users : List UserRow) (db : MsgDb) (roomName : String)
    (limit : Int) :
    (Message.getRecentMessages users db roomName limit).1.Pairwise
      (fun a b => a.timestamp ≤ b.timestamp) := by
  show (Message.queryRecent users (Message.ensureRoom db roomName).2 roomName
      (clampLimit limit)).reverse.Pairwise (fun a b => a.timestamp ≤ b.timestamp)
  exact List.pairwise_reverse.mpr (queryRecent_sorted _ _ _ _)

/-- C3 (amended): the effective history limit is the requested one clamped to
[1,1000], except that a missing, non-numeric, or ZERO limit defaults to 50;
at most that many messages are returned, in chronological (oldest-first)
order despite the descending storage query, and the authenticated API route
returns exactly the formatted history. -/
theorem history_limit_clamped_and_chronological (users : List UserRow) (db : MsgDb)
    (room : String) (limitParam : Option String) :
    (Message.getRecentMessages users db room (appLimit limitParam)).1.length
        ≤ clampLimit (appLimit limitParam)
    ∧ 1 ≤ clampLimit (appLimit limitParam)
    ∧ clampLimit (appLimit limitParam) ≤ 1000
    ∧ appLimit none = 50
    ∧ (∀ s : String, parseIntJs s = none ∨ parseIntJs s = some 0 → appLimit (some s) = 50)
    ∧ clampLimit 50 = 50
    ∧ (Message.getRecentMessages users db room (appLimit limitParam)).1.Pairwise
        (fun a b => a.timestamp ≤ b.timestamp)
    ∧ apiGetMessages users db true room limitParam =
        (ApiResult.ok
          ((Message.getRecentMessages users db room (appLimit limitParam)).1.map
            formatDbMessage),
         (Message.getRecentMessages users db room (appLimit limitParam)).2) := by
  refine ⟨getRecent_length_le users db room _, (clampLimit_bounds _).1,
    (clampLimit_bounds _).2, rfl, ?_, rfl, getRecent_chronological users db room _, rfl⟩
  intro s h
  rcases h with h | h <;> simp [appLimit, h]

/-- Witness: a non-numeric limit parameter defaults to 50. -/
theorem history_limit_clamped_witness : appLimit (some "abc") = 50 :=
  (history_limit_clamped_and_chronological usersC3 msgDbC3 "general"
    (some "abc")).2.2.2.2.1 "abc" (Or.inl (by decide))

/-- C3 counterexample: with existing user `alice` and two stored messages in
room `general`, requesting `limit=0` returns BOTH messages.  The claim as
stated requires at most `clamp₍₁,₁₀₀₀₎(0) = 1` message (and at most the
requested limit 0); the code instead treats 0 as falsy and defaults to 50. -/
theorem api_messages_limit_zero_exceeds_clamp :
    (apiGetMessages usersC3 msgDbC3 true "general" (some "0")).1 =
      ApiResult.ok
        [{ username := "alice", text := "hello", time := renderTime 10,
           messageType := "text", avatar := none },
         { username := "alice", text := "world", time := renderTime 20,
           messageType := "text", avatar := none }]
    ∧ ¬((2 : Int) ≤ max 1 (min 0 1000)) := by
  constructor
  · decide
  · decide

theorem ensureRoom_mem_name (db : MsgDb) (room : String) :
    room ∈ (Message.ensureRoom db room).2.rooms.map (fun r => r.name) := by
  unfold Message.ensureRoom
  cases hf : db.rooms.find? (fun r => r.name = room) with
  | some r =>
    have hr := List.mem_of_find?_eq_some hf
    have hp : r.name = room := by simpa using List.find?_some hf
    simpa using List.mem_map.mpr ⟨r, hr, hp⟩
  | none =>
    simp

/-- C10: retrieving history for a room name with no row in the `rooms` table
creates that row: afterwards the room exists, both through
`Message.getRecentMessages` itself and through the authenticated
`GET /api/messages/:room` route, and the rooms table has grown by one row. -/
theorem history_query_creates_room (users : List UserRow) (db : MsgDb)
    (room : String) (limit : Int) (limitParam : Option String)
    (h : ∀ r ∈ db.rooms, r.name ≠ room) :
    room ∈ (Message.getRecentMessages users db room limit).2.rooms.map (fun r => r.name)
    ∧ room ∈ (apiGetMessages users db true room limitParam).2.rooms.map (fun r => r.name)
    ∧ (Message.getRecentMessages users db room limit).2.rooms.length
        = db.rooms.length + 1 := by
  have hf : db.rooms.find? (fun r => r.name = room) = none :=
    List.find?_eq_none.mpr (fun x hx => by simpa using h x hx)
  refine ⟨ensureRoom_mem_name db room, ensureRoom_mem_name db room, ?_⟩
  show (Message.ensureRoom db room).2.rooms.length = db.rooms.length + 1
  unfold Message.ensureRoom
  rw [hf]
  simp

/-- Witness: loading history for the unknown room `lobby` creates it. -/
theorem history_query_creates_room_witness :
    "lobby" ∈ (Message.getRecentMessages usersC3 msgDb0 "lobby" 50).2.rooms.map
        (fun r => r.name)
    ∧ "lobby" ∈ (apiGetMessages usersC3 msgDb0 true "lobby" (some "5")).2.rooms.map
        (fun r => r.name)
    ∧ (Message.getRecentMessages usersC3 msgDb0 "lobby" 50).2.rooms.length
        = msgDb0.rooms.length + 1 :=
  history_query_creates_room usersC3 msgDb0 "lobby" 50 (some "5") (by decide)

theorem keysNodup_mapSet (k : String) (v : Presence) (m : PresenceMap)
    (h : keysNodup m) : keysNodup (mapSet k v m) := by
  unfold keysNodup mapSet at *
  by_cases ha : m.any (fun p => p.1 = k) = true
  · rw [if_pos ha, List.map_map]
    have he : m.map ((fun p => p.1) ∘ (fun p : String × Presence =>
        if p.1 = k then (k, v) else p)) = m.map (fun p => p.1) := by
      refine List.map_congr_left ?_
      intro p hp
      by_cases hk : p.1 = k
      · simp [hk]
      · simp [hk]
    rw [he]
    exact h
  · rw [if_neg ha, List.map_append]
    refine List.Nodup.append h (by simp) ?_
    intro a haMem haMem2
    rcases List.mem_map.mp haMem with ⟨p, hp, hpa⟩
    have hak : a = k := by simpa using haMem2
    exact ha (List.any_eq_true.mpr ⟨p, hp, by simp [hpa, hak]⟩)

theorem keysNodup_mapDelete (k : String) (m : PresenceMap)
    (h : keysNodup m) : keysNodup (mapDelete k m) := by
  unfold keysNodup mapDelete at *
  exact List.Nodup.sublist (List.Sublist.map _ (List.filter_sublist m)) h

theorem keysNodup_applyPresenceOps (ops : List PresenceOp) :
    ∀ m : PresenceMap, keysNodup m → keysNodup (applyPresenceOps m ops) := by
  induction ops with
  | nil => intro m h; exact h
  | cons op rest ih =>
    intro m h
    refine ih (applyPresenceOp m op) ?_
    cases op with
    | join k p => exact keysNodup_mapSet k p m h
    | leave k => exact keysNodup_mapDelete k m h

theorem find?_replace (k : String) (v : Presence) :
    ∀ m : PresenceMap, m.any (fun p => p.1 = k) = true →
      (m.map (fun p => if p.1 = k then (k, v) else p)).find? (fun p => p.1 = k)
        = some (k, v) := by
  intro m
  induction m with
  | nil => intro h; simp at h
  | cons x t ih =>
    intro h
    by_cases hx : x.1 = k
    · rw [List.map_cons, if_pos hx, List.find?_cons_of_pos _ (by simp)]
    · rw [List.map_cons, if_neg hx, List.find?_cons_of_neg _ (by simp [hx])]
      refine ih ?_
      simpa [List.any_cons, hx] using h

theorem mapSet_replaces (k : String) (v : Presence) (m : PresenceMap)
    (h : (mapGet m k).isSome = true) :
    mapGet (mapSet k v m) k = some v ∧ (mapSet k v m).length = m.length := by
  have hfs : (m.find? (fun p => p.1 = k)).isSome = true := by
    simpa [mapGet] using h
  rcases List.find?_isSome.mp hfs with ⟨x, hx, hpx⟩
  have ha : m.any (fun p => p.1 = k) = true := List.any_eq_true.mpr ⟨x, hx, hpx⟩
  constructor
  · unfold mapGet mapSet
    rw [if_pos ha, find?_replace k v m ha]
    rfl
  · unfold mapSet
    rw [if_pos ha, List.length_map]

/-- C9: each connection id maps to at most one presence record: key
uniqueness of the `connectedUsers` registry is preserved by every
interleaving of the `userJoin`/`userLeave` registry operations, and a
`userJoin` for a connection id that already has a record replaces it in
place — the lookup afterwards yields the new record and the registry size is
unchanged. -/
theorem presence_at_most_one_record (ops : List PresenceOp) (m : PresenceMap)
    (h : keysNodup m) :
    keysNodup (applyPresenceOps m ops)
    ∧ ∀ k v, (mapGet m k).isSome = true →
        mapGet (mapSet k v m) k = some v ∧ (mapSet k v m).length = m.length :=
  ⟨keysNodup_applyPresenceOps ops m h, fun k v hk => mapSet_replaces k v m hk⟩

/-- Witness: a concrete interleaving starting from a one-record registry. -/
theorem presence_at_most_one_record_witness :
    keysNodup (applyPresenceOps [("s1", presAlice)] presOps)
    ∧ mapGet (mapSet "s1" presBob [("s1", presAlice)]) "s1" = some presBob
    ∧ (mapSet "s1" presBob [("s1", presAlice)]).length
        = List.length [("s1", presAlice)] := by
  have hm := presence_at_most_one_record presOps [("s1", presAlice)] (by decide)
  have h3 := hm.2 "s1" presBob (by decide)
  exact ⟨hm.1, h3.1, h3.2⟩

/-- C4: a `chatMessage` from a connection with no presence record (no prior
successful join) emits only "User session not found" to the sender; nothing
is broadcast to anyone, nothing is persisted, and the state — in particular
the message store — is unchanged. -/
theorem chatMessage_requires_presence (f : Faults) (st : ServerState) (socketId : String)
    (payload : Payload) (h : getCurrentUser st socketId = none) :
    chatMessage f st socketId payload =
      { senderError := some "User session not found", broadcast := none,
        persisted := none, state := st } := by
  unfold chatMessage
  rw [h]

/-- Witness: a socket that never joined sends "hi". -/
theorem chatMessage_requires_presence_witness :
    chatMessage noFaults stNoPresence "s1" (Payload.str "hi") =
      { senderError := some "User session not found", broadcast := none,
        persisted := none, state := stNoPresence } :=
  chatMessage_requires_presence noFaults stNoPresence "s1" (Payload.str "hi") rfl

/-- C5: a non-string payload, or one whose trimmed form is empty, yields an
error to the sender only: no broadcast, no persistence, no state change.
This holds whether or not the connection has a presence record (without one
the emitted error is "User session not found" instead). -/
theorem chatMessage_rejects_nonstring_or_empty (f : Faults) (st : ServerState)
    (socketId : String) (payload : Payload)
    (h : payload = Payload.nonString ∨ ∃ s, payload = Payload.str s ∧ jsTrim s = "") :
    ((chatMessage f st socketId payload).senderError).isSome = true
    ∧ (chatMessage f st socketId payload).broadcast = none
    ∧ (chatMessage f st socketId payload).persisted = none
    ∧ (chatMessage f st socketId payload).state = st := by
  unfold chatMessage
  cases hg : getCurrentUser st socketId with
  | none => simp
  | some user =>
    rcases h with h | ⟨s, hs, ht⟩
    · subst h; simp
    · subst hs
      by_cases he : s = ""
      · simp [he]
      · simp [he, ht]

/-- Witness: a joined socket sends a whitespace-only message. -/
theorem chatMessage_rejects_nonstring_or_empty_witness :
    ((chatMessage noFaults stWithAlice "s1" (Payload.str "   ")).senderError).isSome = true
    ∧ (chatMessage noFaults stWithAlice "s1" (Payload.str "   ")).broadcast = none
    ∧ (chatMessage noFaults stWithAlice "s1" (Payload.str "   ")).persisted = none
    ∧ (chatMessage noFaults stWithAlice "s1" (Payload.str "   ")).state = stWithAlice :=
  chatMessage_rejects_nonstring_or_empty noFaults stWithAlice "s1" (Payload.str "   ")
    (Or.inr ⟨"   ", rfl, by decide⟩)

theorem getUsersInRoom_sorted (now : Nat) (users : List UserRow)
    (sessions : List SessionRow) (roomName : String) :
    (Session.getUsersInRoom now users sessions roomName).Pairwise unameLe := by
  unfold Session.getUsersInRoom
  by_cases h : roomName = ""
  · rw [if_pos h]; exact List.Pairwise.nil
  · rw [if_neg h]; exact List.sorted_insertionSort unameLe _

theorem getUsersInRoom_mem (now : Nat) (users : List UserRow)
    (sessions : List SessionRow) (roomName : String) :
    ∀ r ∈ Session.getUsersInRoom now users sessions roomName,
      ∃ s ∈ sessions, ∃ u ∈ users, s.roomName = some roomName
        ∧ now < s.lastActivity + 3600 ∧ u.id = s.userId
        ∧ r.username = u.username ∧ r.avatarUrl = u.avatarUrl := by
  intro r hr
  unfold Session.getUsersInRoom at hr
  by_cases h0 : roomName = ""
  · rw [if_pos h0] at hr; simp at hr
  · rw [if_neg h0] at hr
    have hr1 := (List.perm_insertionSort unameLe _).mem_iff.mp hr
    have hr2 := List.mem_dedup.mp hr1
    rcases List.mem_filterMap.mp hr2 with ⟨s, hs, hmap⟩
    by_cases hc : s.roomName = some roomName ∧ now < s.lastActivity + 3600
    · rw [if_pos hc] at hmap
      rcases Option.map_eq_some'.mp hmap with ⟨u, hfind, hmk⟩
      have hu : u ∈ users := List.mem_of_find?_eq_some hfind
      have hid : u.id = s.userId := by simpa using List.find?_some hfind
      subst hmk
      exact ⟨s, hs, u, hu, hc.1, hc.2, hid, rfl, rfl⟩
    · rw [if_neg hc] at hmap
      exact absurd hmap (by simp)

/-- C8: roster resolution returns the database roster — sessions joined to
users, filtered to the room and the one-hour activity window, ordered by
username — exactly when the query succeeds and is non-empty; the in-memory
presence registry filtered by room (every entry online) is returned exactly
when the query errors or is empty. -/
theorem getRoomUsers_selection (dbFails : Bool) (now : Nat) (users : List UserRow)
    (sessions : List SessionRow) (presence : PresenceMap) (room : String) :
    (dbFails = false → Session.getUsersInRoom now users sessions room ≠ [] →
      getRoomUsers dbFails now users sessions presence room
          = (Session.getUsersInRoom now users sessions room).map dbRosterView
        ∧ (Session.getUsersInRoom now users sessions room).Pairwise unameLe
        ∧ ∀ r ∈ Session.getUsersInRoom now users sessions room,
            ∃ s ∈ sessions, ∃ u ∈ users, s.roomName = some room
              ∧ now < s.lastActivity + 3600 ∧ u.id = s.userId
              ∧ r.username = u.username ∧ r.avatarUrl = u.avatarUrl)
    ∧ ((dbFails = true ∨ Session.getUsersInRoom now users sessions room = []) →
      getRoomUsers dbFails now users sessions presence room
        = memRosterView presence room) := by
  constructor
  · intro h1 h2
    subst h1
    have hie : (Session.getUsersInRoom now users sessions room).isEmpty = false := by
      cases hrows : Session.getUsersInRoom now users sessions room with
      | nil => exact absurd hrows h2
      | cons a t => rfl
    refine ⟨?_, getUsersInRoom_sorted now users sessions room,
      getUsersInRoom_mem now users sessions room⟩
    unfold getRoomUsers
    simp [hie]
  · intro h
    rcases h with h | h
    · subst h
      unfold getRoomUsers
      simp
    · cases dbFails with
      | true => unfold getRoomUsers; simp
      | false =>
        unfold getRoomUsers
        simp [h]

/-- Witness: with one fresh session row the database roster is served; with a
failing query the in-memory fallback is served. -/
theorem getRoomUsers_selection_witness :
    getRoomUsers false 100 usersC3 sessionsC8 [("s1", presAlice)] "general"
        = (Session.getUsersInRoom 100 usersC3 sessionsC8 "general").map dbRosterView
    ∧ getRoomUsers true 100 usersC3 sessionsC8 [("s1", presAlice)] "general"
        = memRosterView [("s1", presAlice)] "general" := by
  have h1 := (getRoomUsers_selection false 100 usersC3 sessionsC8
    [("s1", presAlice)] "general").1 rfl (by decide)
  have h2 := (getRoomUsers_selection true 100 usersC3 sessionsC8
    [("s1", presAlice)] "general").2 (Or.inl rfl)
  exact ⟨h1.1, h2⟩

theorem mapGet_mapSet_self (k : String) (v : Presence) (m : PresenceMap) :
    mapGet (mapSet k v m) k = some v := by
  by_cases ha : m.any (fun p => p.1 = k) = true
  · unfold mapGet mapSet
    rw [if_pos ha, find?_replace k v m ha]
    rfl
  · unfold mapGet mapSet
    rw [if_neg ha]
    have hnone : m.find? (fun p => p.1 = k) = none := by
      refine List.find?_eq_none.mpr ?_
      intro x hx hpx
      exact ha (List.any_eq_true.mpr ⟨x, hx, hpx⟩)
    rw [List.find?_append, hnone]
    simp

theorem setOnlineStatus_usernames (db : UsersDb) (uid : Nat) (b : Bool) (now : Nat) :
    (User.setOnlineStatus db uid b now).rows.map (fun x => x.username)
      = db.rows.map (fun x => x.username) := by
  unfold User.setOnlineStatus
  rw [List.map_map]
  refine List.map_congr_left ?_
  intro x hx
  by_cases h : x.id = uid
  · simp [h]
  · simp [h]

theorem joinRoomWithUser_toSender_head (f : Faults) (st : ServerState)
    (sid sess ip ua un rm : String) (u : UserRow) :
    (joinRoomWithUser f st sid sess ip ua un rm u).toSender.head?
      = some (SEvent.roomJoined rm u.id un) := rfl

theorem joinRoomWithUser_toOthers (f : Faults) (st : ServerState)
    (sid sess ip ua un rm : String) (u : UserRow) :
    (joinRoomWithUser f st sid sess ip ua un rm u).toOthers
      = [SEvent.message (formatMessage botName (un ++ " has joined the chat! 👋")
          st.now)] := rfl

theorem joinRoomWithUser_presence (f : Faults) (st : ServerState)
    (sid sess ip ua un rm : String) (u : UserRow) :
    mapGet (joinRoomWithUser f st sid sess ip ua un rm u).state.presence sid
      = some { id := u.id, socketId := sid, sessionId := sess, username := un,
               room := rm, joinedAt := st.now } := by
  unfold joinRoomWithUser userJoin
  by_cases h1 : f.setOnlineFails = true <;> by_cases h2 : f.sessionCreateFails = true <;>
    by_cases h3 : f.systemMsgFails = true <;>
      simp [h1, h2, h3, mapGet_mapSet_self]

theorem joinRoomWithUser_usernames (f : Faults) (st : ServerState)
    (sid sess ip ua un rm : String) (u : UserRow) :
    (joinRoomWithUser f st sid sess ip ua un rm u).state.usersDb.rows.map
        (fun x => x.username)
      = st.usersDb.rows.map (fun x => x.username) := by
  unfold joinRoomWithUser userJoin
  by_cases h1 : f.setOnlineFails = true <;> by_cases h2 : f.sessionCreateFails = true <;>
    by_cases h3 : f.systemMsgFails = true <;>
      simp [h1, h2, h3, setOnlineStatus_usernames]

theorem joinRoomWithUser_sessions_unchanged (f : Faults) (st : ServerState)
    (sid sess ip ua un rm : String) (u : UserRow) (h : f.sessionCreateFails = true) :
    (joinRoomWithUser f st sid sess ip ua un rm u).state.sessions = st.sessions := by
  unfold joinRoomWithUser userJoin
  by_cases h1 : f.setOnlineFails = true <;> by_cases h3 : f.systemMsgFails = true <;>
    simp [h1, h3, h]

theorem join_found_core (f : Faults) (raceRow : Option UserRow) (st : ServerState)
    (sid sess ip ua un rm : String) (u : UserRow)
    (hun : ¬ un = "") (hrm : ¬ rm = "")
    (hfound : User.findByUsername st.usersDb un = some u) :
    joinRoom f raceRow st sid sess ip ua un rm
      = joinRoomWithUser f st sid sess ip ua un rm u := by
  unfold joinRoom
  rw [if_neg (not_or.mpr ⟨hun, hrm⟩), hfound]

theorem join_race_core (f : Faults) (st : ServerState) (r : UserRow)
    (sid sess ip ua un rm : String)
    (hun : ¬ un = "") (hrm : ¬ rm = "")
    (hmiss : User.findByUsername st.usersDb un = none)
    (hr : r.username = un)
    (hremail : ∀ x ∈ st.usersDb.rows, ¬ x.email = r.email)
    (hcf : f.createUserFails = false) :
    joinRoom f (some r) st sid sess ip ua un rm
      = joinRoomWithUser f
          { st with usersDb := { rows := st.usersDb.rows ++ [r],
                                 nextId := max st.usersDb.nextId (r.id + 1) } }
          sid sess ip ua un rm r := by
  unfold User.findByUsername at hmiss
  have husers : ∀ x ∈ st.usersDb.rows, ¬ x.username = un := by
    intro x hx hxu
    have hnp := List.find?_eq_none.mp hmiss x hx
    simp only [decide_eq_true_eq] at hnp
    exact hnp hxu
  have hany : st.usersDb.rows.any
      (fun x => x.username = r.username || x.email = r.email) = false := by
    refine List.any_eq_false.mpr ?_
    intro x hx
    simp only [Bool.or_eq_true, decide_eq_true_eq, not_or]
    exact ⟨fun hxx => husers x hx (by rw [← hr]; exact hxx), hremail x hx⟩
  have happly : applyRace st.usersDb (some r)
      = { rows := st.usersDb.rows ++ [r], nextId := max st.usersDb.nextId (r.id + 1) } := by
    unfold applyRace
    dsimp only
    rw [if_neg (by simp [hany])]
  have hdup : User.create
      ({ rows := st.usersDb.rows ++ [r],
         nextId := max st.usersDb.nextId (r.id + 1) } : UsersDb)
      un (mkTempEmail un) "temporary123" f.createUserFails = .error .dupEntry := by
    unfold User.create
    rw [hcf]
    rw [if_neg (by simp)]
    rw [if_pos]
    exact List.any_eq_true.mpr ⟨r, by simp, by simp [hr]⟩
  have hrefetch : User.findByUsername
      ({ rows := st.usersDb.rows ++ [r],
         nextId := max st.usersDb.nextId (r.id + 1) } : UsersDb) un = some r := by
    unfold User.findByUsername
    rw [List.find?_append, hmiss]
    simp [hr]
  unfold joinRoom
  rw [if_neg (not_or.mpr ⟨hun, hrm⟩)]
  rw [show User.findByUsername st.usersDb un = none from hmiss]
  simp only [happly, hdup, hrefetch]

/-- C2 (amended): a persistence failure in `User.create` (other than the
duplicate-key conflict) rejects the join with `roomJoinError`, registers no
presence record, sends no success confirmation and broadcasts nothing; but a
persistence failure in `Session.create` (inside `userJoin`) is caught and
logged: the presence record IS registered and the join completes with the
success confirmation and the broadcasts, leaving no session row behind. -/
theorem join_persistence_failure_modes (f g : Faults) (st st' : ServerState)
    (sid sess ip ua un rm : String) (u : UserRow)
    (hun : ¬ un = "") (hrm : ¬ rm = "")
    (hfound : User.findByUsername st.usersDb un = some u)
    (hsess : f.sessionCreateFails = true)
    (hg : g.createUserFails = true)
    (hmiss : User.findByUsername st'.usersDb un = none) :
    (mapGet (joinRoom f none st sid sess ip ua un rm).state.presence sid
        = some { id := u.id, socketId := sid, sessionId := sess, username := un,
                 room := rm, joinedAt := st.now }
      ∧ (joinRoom f none st sid sess ip ua un rm).toSender.head?
          = some (SEvent.roomJoined rm u.id un)
      ∧ (joinRoom f none st sid sess ip ua un rm).toOthers
          = [SEvent.message (formatMessage botName
              (un ++ " has joined the chat! 👋") st.now)]
      ∧ (joinRoom f none st sid sess ip ua un rm).state.sessions = st.sessions)
    ∧ ((joinRoom g none st' sid sess ip ua un rm).toSender
          = [SEvent.roomJoinError "Error creating user account"]
      ∧ (joinRoom g none st' sid sess ip ua un rm).toOthers = []
      ∧ (joinRoom g none st' sid sess ip ua un rm).toAll = []
      ∧ (joinRoom g none st' sid sess ip ua un rm).state.presence = st'.presence) := by
  constructor
  · rw [join_found_core f none st sid sess ip ua un rm u hun hrm hfound]
    exact ⟨joinRoomWithUser_presence f st sid sess ip ua un rm u,
      joinRoomWithUser_toSender_head f st sid sess ip ua un rm u,
      joinRoomWithUser_toOthers f st sid sess ip ua un rm u,
      joinRoomWithUser_sessions_unchanged f st sid sess ip ua un rm u hsess⟩
  · have hcreate : User.create st'.usersDb un (mkTempEmail un) "temporary123"
        g.createUserFails = .error .other := by
      unfold User.create
      rw [hg]
      rfl
    unfold joinRoom
    rw [if_neg (not_or.mpr ⟨hun, hrm⟩), hmiss]
    simp only [applyRace, hcreate]
    exact ⟨trivial, trivial, trivial, trivial⟩

/-- Witness: the session-creation-failure scenario leaves no session row yet
succeeds, and the user-creation-failure scenario is rejected. -/
theorem join_persistence_failure_modes_witness :
    (joinRoom fSessFail none stNoPresence "s1" "sess1" "ip" "ua" "alice"
        "general").state.sessions = stNoPresence.sessions
    ∧ (joinRoom fCreateFail none stEmptyUsers "s1" "sess1" "ip" "ua" "alice"
        "general").toSender = [SEvent.roomJoinError "Error creating user account"] :=
  ⟨(join_persistence_failure_modes fSessFail fCreateFail stNoPresence stEmptyUsers
      "s1" "sess1" "ip" "ua" "alice" "general" rowAlice (by decide) (by decide)
      (by decide) rfl rfl (by decide)).1.2.2.2,
   (join_persistence_failure_modes fSessFail fCreateFail stNoPresence stEmptyUsers
      "s1" "sess1" "ip" "ua" "alice" "general" rowAlice (by decide) (by decide)
      (by decide) rfl rfl (by decide)).2.1⟩

/-- C2 counterexample: with user `alice` persisted and `Session.create`
failing, the join is NOT rejected: the presence record is registered,
`roomJoined` is emitted to the joiner, and the join notice is broadcast to
the room — contradicting the claim that any persistence failure during
user/session creation rejects the join with no presence record, no success
confirmation and no broadcast. -/
theorem join_session_failure_not_rejected :
    (mapGet (joinRoom fSessFail none stNoPresence "s1" "sess1" "ip" "ua" "alice"
        "general").state.presence "s1").isSome = true
    ∧ (joinRoom fSessFail none stNoPresence "s1" "sess1" "ip" "ua" "alice"
        "general").toSender.head? = some (SEvent.roomJoined "general" 1 "alice")
    ∧ (joinRoom fSessFail none stNoPresence "s1" "sess1" "ip" "ua" "alice"
        "general").toOthers
        = [SEvent.message (formatMessage botName "alice has joined the chat! 👋" 100)]
    ∧ fSessFail.sessionCreateFails = true := by
  refine ⟨by decide, by decide, by decide, rfl⟩

/-- C6: when the guest insert hits a duplicate-key conflict because a
concurrent connection committed the same guest username, the handler
re-fetches the existing row and completes the join as that user: the success
confirmation carries the existing row's id, the presence record is
registered, and the join notice is broadcast. -/
theorem join_guest_race_refetches (f : Faults) (st : ServerState) (r : UserRow)
    (sid sess ip ua un rm : String)
    (hun : ¬ un = "") (hrm : ¬ rm = "")
    (hmiss : User.findByUsername st.usersDb un = none)
    (hr : r.username = un)
    (hremail : ∀ x ∈ st.usersDb.rows, ¬ x.email = r.email)
    (hcf : f.createUserFails = false) :
    (joinRoom f (some r) st sid sess ip ua un rm).toSender.head?
        = some (SEvent.roomJoined rm r.id un)
    ∧ mapGet (joinRoom f (some r) st sid sess ip ua un rm).state.presence sid
        = some { id := r.id, socketId := sid, sessionId := sess, username := un,
                 room := rm, joinedAt := st.now }
    ∧ (joinRoom f (some r) st sid sess ip ua un rm).toOthers
        = [SEvent.message (formatMessage botName
            (un ++ " has joined the chat! 👋") st.now)] := by
  rw [join_race_core f st r sid sess ip ua un rm hun hrm hmiss hr hremail hcf]
  exact ⟨joinRoomWithUser_toSender_head f _ sid sess ip ua un rm r,
    joinRoomWithUser_presence f _ sid sess ip ua un rm r,
    joinRoomWithUser_toOthers f _ sid sess ip ua un rm r⟩

/-- Witness: `alice` is committed concurrently; the join reuses her row. -/
theorem join_guest_race_refetches_witness :
    (joinRoom noFaults (some rowAlice) stEmptyUsers "s1" "sess1" "ip" "ua" "alice"
        "general").toSender.head? = some (SEvent.roomJoined "general" rowAlice.id "alice")
    ∧ mapGet (joinRoom noFaults (some rowAlice) stEmptyUsers "s1" "sess1" "ip" "ua"
        "alice" "general").state.presence "s1"
        = some { id := rowAlice.id, socketId := "s1", sessionId := "sess1",
                 username := "alice", room := "general", joinedAt := stEmptyUsers.now } :=
  ⟨(join_guest_race_refetches noFaults stEmptyUsers rowAlice "s1" "sess1" "ip" "ua"
      "alice" "general" (by decide) (by decide) rfl rfl (fun x hx => absurd hx (List.not_mem_nil x)) rfl).1,
   (join_guest_race_refetches noFaults stEmptyUsers rowAlice "s1" "sess1" "ip" "ua"
      "alice" "general" (by decide) (by decide) rfl rfl (fun x hx => absurd hx (List.not_mem_nil x)) rfl).2.1⟩

/-- C7 (amended): in the join path a guest-username collision (the row
committed concurrently) is resolved by reusing the existing row, NOT by
suffixing: the join proceeds under the very same username and the only
username added to the users table is the colliding one itself. -/
theorem join_race_no_suffix (f : Faults) (st : ServerState) (r : UserRow)
    (sid sess ip ua un rm : String)
    (hun : ¬ un = "") (hrm : ¬ rm = "")
    (hmiss : User.findByUsername st.usersDb un = none)
    (hr : r.username = un)
    (hremail : ∀ x ∈ st.usersDb.rows, ¬ x.email = r.email)
    (hcf : f.createUserFails = false) :
    (joinRoom f (some r) st sid sess ip ua un rm).toSender.head?
        = some (SEvent.roomJoined rm r.id un)
    ∧ (joinRoom f (some r) st sid sess ip ua un rm).state.usersDb.rows.map
        (fun x => x.username)
        = st.usersDb.rows.map (fun x => x.username) ++ [un] := by
  rw [join_race_core f st r sid sess ip ua un rm hun hrm hmiss hr hremail hcf]
  refine ⟨joinRoomWithUser_toSender_head f _ sid sess ip ua un rm r, ?_⟩
  rw [joinRoomWithUser_usernames f _ sid sess ip ua un rm r]
  simp [hr]

/-- Witness: the amended no-suffix behaviour at the concrete race. -/
theorem join_race_no_suffix_witness :
    (joinRoom noFaults (some rowAlice) stEmptyUsers "s1" "sess1" "ip" "ua" "alice"
        "general").toSender.head? = some (SEvent.roomJoined "general" rowAlice.id "alice")
    ∧ (joinRoom noFaults (some rowAlice) stEmptyUsers "s1" "sess1" "ip" "ua" "alice"
        "general").state.usersDb.rows.map (fun x => x.username)
        = stEmptyUsers.usersDb.rows.map (fun x => x.username) ++ ["alice"] :=
  join_race_no_suffix noFaults stEmptyUsers rowAlice "s1" "sess1" "ip" "ua"
    "alice" "general" (by decide) (by decide) rfl rfl
    (fun x hx => absurd hx (List.not_mem_nil x)) rfl

/-- C7 counterexample: the unknown username `alice` collides with a row a
concurrent connection just persisted; the join completes as that user with
the SAME username and after it every persisted username equals `alice` — no
suffixed username (`alice1`, ...) is ever created by the join path. -/
theorem join_race_reuses_username_counterexample :
    (joinRoom noFaults (some rowAlice) stEmptyUsers "s1" "sess1" "ip" "ua" "alice"
        "general").toSender.head? = some (SEvent.roomJoined "general" 1 "alice")
    ∧ (joinRoom noFaults (some rowAlice) stEmptyUsers "s1" "sess1" "ip" "ua" "alice"
        "general").state.usersDb.rows.map (fun x => x.username) = ["alice"]
    ∧ rowAlice.username = "alice" := by
  refine ⟨by decide, by decide, rfl⟩

end ChatBud
